import Mathlib

/-!
Verification development for the MobileAnalytics backend (`src/app.py`).

The file shallowly embeds the parts of `app.py` that the verified claims
are about:

* the MQTT ingestion handler `on_message` (lines 97-147),
* the query-parameter helper `_build_query` (lines 367-392),
* the REST endpoints `health`, `sessions`, `get_imu`, `imu_stats`,
  `get_gps`, `gps_latest`, `summary`, `available_days` (lines 209-364),
* the `serialize` helper (lines 203-207).

Modelling conventions:

* Instants (`datetime`) are integers counting UTC microseconds since the
  Unix epoch, matching Python `datetime`'s microsecond resolution.
  `datetime.now(timezone.utc)` is passed in as an explicit `now` argument.
* Decoded JSON payloads are values of the inductive `Json`; a message
  carries `Option Json`, where `none` models a `json.loads` decode failure
  (the raised `JSONDecodeError`).  Python `dict` lookups are embedded
  exactly: `d.get(k)` is total on objects, `d[k]` raises `KeyError`,
  and attribute/index access on a non-dict raises (`AttributeError` /
  `TypeError`), all folded into `PyErr`.
* Python `float` literals are modelled as exact decimals `num / 10 ^ k`;
  binary floating-point rounding is out of scope (no claim depends on it).
* The MongoDB driver is modelled as in-process lists of stored records;
  a boolean `failing` flag models the driver raising on any query, and
  `DB.disconnected` models `mongo_db is None`.
-/

namespace MobileAnalytics

/-- Instants: UTC microseconds since the Unix epoch (Python `datetime`
has microsecond resolution). -/
abbrev DT := Int

/-- Decoded JSON values, the result type of `json.loads`. -/
inductive Json where
  | null
  | bool (b : Bool)
  | num (q : ℚ)
  | str (s : String)
  | arr (xs : List Json)
  | obj (fs : List (String × Json))

/-- Python exceptions raised during payload extraction.  `on_message`
distinguishes `KeyError` (logged with the missing key, line 144) from
every other exception (line 146); nothing else inspects the payload of
an exception, so all non-`KeyError` exceptions carry just a message. -/
inductive PyErr where
  | keyError (k : String)
  | other (m : String)

/-- The message text of an exception, as `str(e)` would render it. -/
def PyErr.msg : PyErr → String
  | .keyError k => k
  | .other m => m

/-- First binding of a key in a decoded JSON object (Python `dict`s have
unique keys; `json.loads` keeps the last duplicate, but no claim involves
duplicate keys, and on duplicate-free field lists this is exact). -/
def lookupField : List (String × Json) → String → Option Json
  | [], _ => none
  | (k, v) :: fs, key => if k = key then some v else lookupField fs key

/-- Python `d.get(k)`: `None` when the key is absent, raises
`AttributeError` when `d` is not a dict. -/
def dictGet : Json → String → Except PyErr (Option Json)
  | .obj fs, k => .ok (lookupField fs k)
  | _, _ => .error (.other "AttributeError: object has no attribute get")

/-- Python `d[k]`: raises `KeyError` when the key is absent and
`TypeError` when `d` is not a dict. -/
def dictIndex : Json → String → Except PyErr Json
  | .obj fs, k =>
    match lookupField fs k with
    | some v => .ok v
    | none => .error (.keyError k)
  | _, _ => .error (.other "TypeError: value is not subscriptable by string")

/- ── Python scalar parsing ──────────────────────────────────────────── -/

/-- Numeric value of a decimal digit character. -/
def digitVal (c : Char) : Nat := c.toNat - 48

/-- All-digit character list to a natural number; `none` when empty or
containing a non-digit. -/
def digitsToNat (cs : List Char) : Option Nat :=
  if cs ≠ [] ∧ cs.all Char.isDigit then
    some (cs.foldl (fun a c => a * 10 + digitVal c) 0)
  else none

/-- Strip leading and trailing whitespace, as Python `int`/`float` do
before parsing. -/
def pyTrim (cs : List Char) : List Char :=
  ((cs.dropWhile Char.isWhitespace).reverse.dropWhile Char.isWhitespace).reverse

/-- Python `int(s)`: optional sign, then decimal digits, surrounding
whitespace allowed; `none` models the raised `ValueError`.  (Underscore
digit separators are not modelled; no claim involves them.) -/
def parseIntPy (s : String) : Option Int :=
  match pyTrim s.data with
  | '-' :: rest => (digitsToNat rest).map (fun n => -(n : Int))
  | '+' :: rest => (digitsToNat rest).map (fun n => (n : Int))
  | cs => (digitsToNat cs).map (fun n => (n : Int))

/-- Unsigned decimal literal `digits [. digits]`, `.digits`, or `digits.`;
returns the value scaled by `10 ^ k` together with `k` (the number of
fractional digits). -/
def parseUFloat (cs : List Char) : Option (Nat × Nat) :=
  let ip := cs.takeWhile Char.isDigit
  let rest := cs.dropWhile Char.isDigit
  match rest with
  | [] => if ip = [] then none else some (ip.foldl (fun a c => a * 10 + digitVal c) 0, 0)
  | '.' :: frac =>
    if frac.all Char.isDigit ∧ (ip ≠ [] ∨ frac ≠ []) then
      some ((ip ++ frac).foldl (fun a c => a * 10 + digitVal c) 0, frac.length)
    else none
  | _ => none

/-- Python `float(s)` for plain decimal literals, as an exact scaled
decimal `value = num / 10 ^ k`; `none` models the raised `ValueError`.
(Exponent, `inf` and `nan` forms are not modelled; no claim uses them.) -/
def parseFloatPy (s : String) : Option (Int × Nat) :=
  match pyTrim s.data with
  | '-' :: rest => (parseUFloat rest).map (fun p => (-(p.1 : Int), p.2))
  | '+' :: rest => (parseUFloat rest).map (fun p => ((p.1 : Int), p.2))
  | cs => (parseUFloat cs).map (fun p => ((p.1 : Int), p.2))

/-- Microseconds of `timedelta(minutes=v)` for the scaled decimal
`v = num / 10 ^ k`. -/
def minutesToMicros (num : Int) (k : Nat) : Int :=
  (num * 60000000).fdiv ((10 : Int) ^ k)

/- ── ISO-8601 instants ──────────────────────────────────────────────── -/

/-- Gregorian leap-year test. -/
def isLeap (y : Int) : Bool :=
  y % 4 == 0 && (y % 100 != 0 || y % 400 == 0)

/-- Length of a month, for date validation (Python `fromisoformat`
rejects out-of-range days). -/
def daysInMonth (y : Int) (m : Nat) : Nat :=
  if m == 2 then (if isLeap y then 29 else 28)
  else if m == 4 || m == 6 || m == 9 || m == 11 then 30
  else 31

/-- Days from the epoch of the civil date `y-m-d` (standard
days-from-civil computation). -/
def daysFromCivil (y0 : Int) (m d : Nat) : Int :=
  let y : Int := if m ≤ 2 then y0 - 1 else y0
  let era : Int := y.fdiv 400
  let yoe : Nat := (y - era * 400).toNat
  let mp : Nat := if m > 2 then m - 3 else m + 9
  let doy : Nat := (153 * mp + 2) / 5 + d - 1
  let doe : Nat := yoe * 365 + yoe / 4 - yoe / 100 + doy
  era * 146097 + (doe : Int) - 719468
/-- Civil date `(y, m, d)` of an epoch day (inverse of `daysFromCivil`). -/
def civilFromDays (z0 : Int) : Int × Nat × Nat :=
  let z : Int := z0 + 719468
  let era : Int := z.fdiv 146097
  let doe : Nat := (z - era * 146097).toNat
  let yoe : Nat := (doe - doe / 1460 + doe / 36524 - doe / 146097) / 365
  let y : Int := (yoe : Int) + era * 400
  let doy : Nat := doe - (365 * yoe + yoe / 4 - yoe / 100)
  let mp : Nat := (5 * doy + 2) / 153
  let d : Nat := doy - (153 * mp + 2) / 5 + 1
  let m : Nat := if mp < 10 then mp + 3 else mp - 9
  (if m ≤ 2 then y + 1 else y, m, d)

/-- Two decimal digits. -/
def twoDigits (a b : Char) : Option Nat :=
  if a.isDigit ∧ b.isDigit then some (digitVal a * 10 + digitVal b) else none

/-- Split a character list at the first `+` or `-`, returning the part
before it and, when found, the sign with the part after it.  Used to
separate the time-of-day of an ISO string from its UTC-offset suffix. -/
def splitAtSign : List Char → List Char × Option (Char × List Char)
  | [] => ([], none)
  | c :: rest =>
    if c = '+' ∨ c = '-' then ([], some (c, rest))
    else
      let p := splitAtSign rest
      (c :: p.1, p.2)

/-- Time-of-day `HH`, `HH:MM`, `HH:MM:SS` or `HH:MM:SS.fff[fff]` in
microseconds; `none` models `ValueError`.  The fractional part must have
exactly 3 or 6 digits, as in Python 3.10 `fromisoformat`. -/
def parseTimePart : List Char → Option Int
  | [h1, h2] =>
    (twoDigits h1 h2).bind (fun hh =>
      if hh < 24 then some ((hh : Int) * 3600000000) else none)
  | [h1, h2, ':', m1, m2] =>
    (twoDigits h1 h2).bind (fun hh =>
      (twoDigits m1 m2).bind (fun mm =>
        if hh < 24 ∧ mm < 60 then
          some ((hh : Int) * 3600000000 + (mm : Int) * 60000000)
        else none))
  | [h1, h2, ':', m1, m2, ':', s1, s2] =>
    (twoDigits h1 h2).bind (fun hh =>
      (twoDigits m1 m2).bind (fun mm =>
        (twoDigits s1 s2).bind (fun ss =>
          if hh < 24 ∧ mm < 60 ∧ ss < 60 then
            some ((hh : Int) * 3600000000 + (mm : Int) * 60000000 + (ss : Int) * 1000000)
          else none)))
  | h1 :: h2 :: ':' :: m1 :: m2 :: ':' :: s1 :: s2 :: '.' :: frac =>
    (twoDigits h1 h2).bind (fun hh =>
      (twoDigits m1 m2).bind (fun mm =>
        (twoDigits s1 s2).bind (fun ss =>
          if (hh < 24 ∧ mm < 60 ∧ ss < 60) ∧ frac.all Char.isDigit then
            match frac.length with
            | 3 => some ((hh : Int) * 3600000000 + (mm : Int) * 60000000
                + (ss : Int) * 1000000 + (frac.foldl (fun a c => a * 10 + digitVal c) 0 : Int) * 1000)
            | 6 => some ((hh : Int) * 3600000000 + (mm : Int) * 60000000
                + (ss : Int) * 1000000 + (frac.foldl (fun a c => a * 10 + digitVal c) 0 : Int))
            | _ => none
          else none)))
  | _ => none

/-- UTC offset `HH:MM` after a sign, in microseconds. -/
def parseOffset (sign : Char) : List Char → Option Int
  | [h1, h2, ':', m1, m2] =>
    (twoDigits h1 h2).bind (fun hh =>
      (twoDigits m1 m2).bind (fun mm =>
        if hh < 24 ∧ mm < 60 then
          let v : Int := ((hh : Int) * 3600 + (mm : Int) * 60) * 1000000
          some (if sign = '-' then -v else v)
        else none))
  | _ => none

/-- Python `datetime.fromisoformat` restricted to the forms the spec
needs: `YYYY-MM-DD`, optionally followed by a one-character separator and
a time-of-day, optionally followed by a `+HH:MM`/`-HH:MM` offset.  The
result is the denoted instant in epoch microseconds (offset-naive strings
are taken at UTC); `none` models the raised `ValueError`. -/
def fromisoformat (s : String) : Option DT :=
  match s.data with
  | y1 :: y2 :: y3 :: y4 :: '-' :: mo1 :: mo2 :: '-' :: d1 :: d2 :: rest =>
    match twoDigits y1 y2, twoDigits y3 y4, twoDigits mo1 mo2, twoDigits d1 d2 with
    | some yh, some yl, some mo, some da =>
      let y : Int := (yh * 100 + yl : Nat)
      if 1 ≤ mo ∧ mo ≤ 12 ∧ 1 ≤ da ∧ da ≤ daysInMonth y mo then
        let base : Int := daysFromCivil y mo da * 86400000000
        match rest with
        | [] => some base
        | _sep :: tcs =>
          let p := splitAtSign tcs
          match parseTimePart p.1 with
          | none => none
          | some tm =>
            match p.2 with
            | none => some (base + tm)
            | some so =>
              match parseOffset so.1 so.2 with
              | none => none
              | some off => some (base + tm - off)
      else none
    | _, _, _, _ => none
  | _ => none

/-- Python `s.replace("Z", "+00:00")` (line 386/388): every occurrence of
the one-character pattern `Z` is replaced. -/
def replaceZ (s : String) : String :=
  String.mk (s.data.foldr
    (fun c acc => if c = 'Z' then '+' :: '0' :: '0' :: ':' :: '0' :: '0' :: acc else c :: acc)
    [])

/-- Zero-padded two-digit rendering. -/
def pad2 (n : Nat) : String :=
  if n < 10 then "0" ++ toString n else toString n

/-- Zero-padded four-digit year rendering. -/
def pad4 (n : Nat) : String :=
  if n < 10 then "000" ++ toString n
  else if n < 100 then "00" ++ toString n
  else if n < 1000 then "0" ++ toString n
  else toString n

/-- Zero-padded six-digit rendering (microsecond fraction). -/
def pad6 (n : Nat) : String :=
  if n < 10 then "00000" ++ toString n
  else if n < 100 then "0000" ++ toString n
  else if n < 1000 then "000" ++ toString n
  else if n < 10000 then "00" ++ toString n
  else if n < 100000 then "0" ++ toString n
  else toString n

/-- Python `datetime.isoformat()` on a stored aware-UTC instant. -/
def isoformat (t : DT) : String :=
  let day : Int := t.fdiv 86400000000
  let rem : Nat := (t - day * 86400000000).toNat
  let c := civilFromDays day
  let sod : Nat := rem / 1000000
  let micro : Nat := rem % 1000000
  pad4 c.1.toNat ++ "-" ++ pad2 c.2.1 ++ "-" ++ pad2 c.2.2 ++ "T"
    ++ pad2 (sod / 3600) ++ ":" ++ pad2 (sod % 3600 / 60) ++ ":" ++ pad2 (sod % 60)
    ++ (if micro == 0 then "" else "." ++ pad6 micro)
    ++ "+00:00"

/- ── Query building (`_build_query`, lines 367-392) ─────────────────── -/

/-- A session equality value: `int(session)` when the string parses,
otherwise the raw string (lines 373-376). -/
inductive SessionVal where
  | int (n : Int)
  | str (s : String)
deriving DecidableEq

/-- The `received_at` range predicate of a query: the Mongo document
`{"$gte": ..., "$lte": ...}` with the bounds that are present. -/
structure TimeFilter where
  gte : Option DT := none
  lte : Option DT := none
deriving DecidableEq

/-- The Mongo filter document built by `_build_query`: an optional
`session` equality and an optional `received_at` range. -/
structure Query where
  session : Option SessionVal := none
  received_at : Option TimeFilter := none
deriving DecidableEq

/-- The raw request parameters read by `_build_query` via
`request.args.get`; `none` is an absent parameter. -/
structure Args where
  limit : Option String := none
  session : Option String := none
  minutes : Option String := none
  from_dt : Option String := none
  to_dt : Option String := none

/-- Line 369, `int(args.get("limit", 2000))`: the default `2000` when the
parameter is absent, otherwise `int(...)` whose `ValueError` escapes to
the caller. -/
def limitOf : Option String → Except PyErr Int
  | none => .ok 2000
  | some s =>
    match parseIntPy s with
    | some n => .ok n
    | none => .error (.other "ValueError: invalid literal for int")

/-- Lines 372-376, the session filter: no predicate when the parameter is
absent, empty or `"all"`; otherwise `int(...)` equality when the string
parses as an integer, raw-string equality otherwise (the `try`/`except`
around `int`). -/
def sessionPredOf : Option String → Option SessionVal
  | none => none
  | some s =>
    if s = "" ∨ s = "all" then none
    else
      match parseIntPy s with
      | some n => some (.int n)
      | none => some (.str s)

/-- One bound of lines 385-388: a present, non-empty (truthy) parameter
is parsed with `fromisoformat` after `Z`-normalisation; the parse failure
is the raised `ValueError`. -/
def parseBound : Option String → Except PyErr (Option DT)
  | some s =>
    if s ≠ "" then
      match fromisoformat (replaceZ s) with
      | some t => .ok (some t)
      | none => .error (.other "ValueError: Invalid isoformat string")
    else .ok none
  | none => .ok none

/-- Lines 384-390, the explicit `from_dt`/`to_dt` branch: an inclusive
range from whichever bounds are present, no predicate when neither is. -/
def fromToFilter (args : Args) : Except PyErr (Option TimeFilter) :=
  match parseBound args.from_dt with
  | .error e => .error e
  | .ok g =>
    match parseBound args.to_dt with
    | .error e => .error e
    | .ok l =>
      if g.isNone ∧ l.isNone then .ok none
      else .ok (some { gte := g, lte := l })

/-- Lines 379-390, the time window: a truthy `minutes` parameter produces
the rolling `received_at >= now - timedelta(minutes=float(minutes))`
predicate and the `from_dt`/`to_dt` parameters are never read; otherwise
the explicit branch runs.  `float`'s `ValueError` escapes to the caller. -/
def receivedOf (args : Args) (now : DT) : Except PyErr (Option TimeFilter) :=
  match args.minutes with
  | some m =>
    if m ≠ "" then
      match parseFloatPy m with
      | some p => .ok (some { gte := some (now - minutesToMicros p.1 p.2), lte := none })
      | none => .error (.other "ValueError: could not convert string to float")
    else fromToFilter args
  | none => fromToFilter args

/-- Lines 367-392, `_build_query(args)`.  `now` is the value of
`datetime.now(timezone.utc)` at line 381.  An exception escaping the
function (unparsable `limit` at line 369, unparsable `minutes` at 381, or
a malformed instant at 386/388 — in that evaluation order) is
`Except.error`; callers catch it in their `try`/`except` blocks.  The
session block (372-376) cannot raise, so it is folded into the result. -/
def _build_query (args : Args) (now : DT) : Except PyErr (Query × Int) :=
  match limitOf args.limit with
  | .error e => .error e
  | .ok limit =>
    match receivedOf args now with
    | .error e => .error e
    | .ok received =>
      .ok ({ session := sessionPredOf args.session, received_at := received }, limit)

/- ── Ingestion (`on_message`, lines 97-147) ─────────────────────────── -/

/-- The IMU topic (line 68). -/
def MQTT_TOPIC_IMU : String := "/mobile/imu"

/-- The GPS topic (line 69). -/
def MQTT_TOPIC_GPS : String := "/mobile/gps"

/-- The document inserted into the `imu` collection (lines 119-129). -/
structure ImuDoc where
  timestamp : Json
  session : Json
  ax : Json
  ay : Json
  az : Json
  gx : Json
  gy : Json
  gz : Json
  received_at : DT

/-- The document inserted into the `gps` collection (lines 134-140). -/
structure GpsDoc where
  timestamp : Json
  session : Json
  lat : Json
  lon : Json
  received_at : DT

/-- A stored IMU record: the inserted document plus the `_id` MongoDB
assigns on insertion (abstracted to a natural number). -/
structure StoredImu where
  oid : Nat
  doc : ImuDoc

/-- A stored GPS record: the inserted document plus its `_id`. -/
structure StoredGps where
  oid : Nat
  doc : GpsDoc

/-- The two collections of the document store. -/
structure Store where
  imu : List StoredImu := []
  gps : List StoredGps := []

/-- An inbound MQTT message as `on_message` sees it: the broker retain
flag, the topic, and the payload after `json.loads` (`none` models a
decode failure, i.e. the raised `JSONDecodeError`). -/
structure Msg where
  retain : Bool
  topic : String
  payload : Option Json

/-- The process state `on_message` reads and writes: `ready` is the
result of `mongo_ready.wait(timeout=10)` (line 103), `dbNone` is
`mongo_db is None` (line 114), `nextOid` the next `_id` MongoDB will
assign, and `logs` the `print`ed lines, appended in order. -/
structure IngestState where
  ready : Bool
  dbNone : Bool
  nextOid : Nat
  store : Store
  logs : List String

/-- The IMU document-building dict literal of lines 119-129.  Evaluation
order matches the source: `payload["acc"]["x"/"y"/"z"]` raise `KeyError`
on a missing key (`TypeError` when `acc` is not a dict), the total
`payload.get(...)` lookups are hoisted into the final record, and
`payload.get("gyro", {}).get(...)` raises `AttributeError` when the
`gyro` value is present but not a dict.  A non-dict payload raises at the
first `payload.get` (line 120). -/
def imuDocOf (p : Json) (received_at : DT) : Except PyErr ImuDoc :=
  match p with
  | .obj fs =>
    match lookupField fs "acc" with
    | none => .error (.keyError "acc")
    | some acc =>
      match acc with
      | .obj a =>
        match lookupField a "x" with
        | none => .error (.keyError "x")
        | some ax =>
          match lookupField a "y" with
          | none => .error (.keyError "y")
          | some ay =>
            match lookupField a "z" with
            | none => .error (.keyError "z")
            | some az =>
              match (lookupField fs "gyro").getD (.obj []) with
              | .obj g =>
                .ok { timestamp := (lookupField fs "timestamp").getD .null,
                      session := (lookupField fs "session").getD .null,
                      ax := ax, ay := ay, az := az,
                      gx := (lookupField g "x").getD (.num 0),
                      gy := (lookupField g "y").getD (.num 0),
                      gz := (lookupField g "z").getD (.num 0),
                      received_at := received_at }
              | _ => .error (.other "AttributeError: object has no attribute get")
      | _ => .error (.other "TypeError: value is not subscriptable by string")
  | _ => .error (.other "AttributeError: object has no attribute get")

/-- The GPS document-building dict literal of lines 134-140. -/
def gpsDocOf (p : Json) (received_at : DT) : Except PyErr GpsDoc :=
  match p with
  | .obj fs =>
    match lookupField fs "gps" with
    | none => .error (.keyError "gps")
    | some gps =>
      match gps with
      | .obj g =>
        match lookupField g "lat" with
        | none => .error (.keyError "lat")
        | some lat =>
          match lookupField g "lon" with
          | none => .error (.keyError "lon")
          | some lon =>
            .ok { timestamp := (lookupField fs "timestamp").getD .null,
                  session := (lookupField fs "session").getD .null,
                  lat := lat, lon := lon, received_at := received_at }
      | _ => .error (.other "TypeError: value is not subscriptable by string")
  | _ => .error (.other "AttributeError: object has no attribute get")

/-- The log line of the `except` handlers at lines 144-147: `KeyError`
is logged with the missing key, every other exception with its message. -/
def dropLog : PyErr → String
  | .keyError k => "[MQTT] Missing key in payload: " ++ k
  | .other m => "[MQTT] Message error: " ++ m

/-- Lines 97-147, the per-message MQTT callback.  `received_at` is the
value of `datetime.now(timezone.utc)` at line 109.  In order: retained
messages are discarded (lines 99-101), then the readiness wait (103-105),
then JSON decoding (108, a failure is caught at line 146), then the
`mongo_db is None` guard (114-116), then topic dispatch with document
building and a single `insert_one` (118-142); any extraction exception
is caught and logged (144-147) without touching the store. -/
def on_message (st : IngestState) (msg : Msg) (received_at : DT) : IngestState :=
  if msg.retain then
    { st with logs := st.logs ++ ["[MQTT] Ignoring retained message"] }
  else if !st.ready then
    { st with logs := st.logs ++ ["[MQTT] Timed out waiting for MongoDB, dropping message"] }
  else
    match msg.payload with
    | none => { st with logs := st.logs ++ [dropLog (.other "JSONDecodeError")] }
    | some payload =>
      if st.dbNone then
        { st with logs := st.logs ++ ["[MQTT] mongo_db is None, cannot save data"] }
      else if msg.topic = MQTT_TOPIC_IMU then
        match imuDocOf payload received_at with
        | .ok doc =>
          { st with
            store := { st.store with imu := st.store.imu ++ [{ oid := st.nextOid, doc := doc }] },
            nextOid := st.nextOid + 1,
            logs := st.logs ++ ["[MQTT] IMU data saved"] }
        | .error e => { st with logs := st.logs ++ [dropLog e] }
      else if msg.topic = MQTT_TOPIC_GPS then
        match gpsDocOf payload received_at with
        | .ok doc =>
          { st with
            store := { st.store with gps := st.store.gps ++ [{ oid := st.nextOid, doc := doc }] },
            nextOid := st.nextOid + 1,
            logs := st.logs ++ ["[MQTT] GPS data saved"] }
        | .error e => { st with logs := st.logs ++ [dropLog e] }
      else st

/-- The payload has an `acc` object containing all of `x`, `y`, `z`. -/
def accCompleteB (p : Json) : Bool :=
  match p with
  | .obj fs =>
    match lookupField fs "acc" with
    | some (.obj a) =>
      ((lookupField a "x").isSome && (lookupField a "y").isSome) && (lookupField a "z").isSome
    | _ => false
  | _ => false

/-- The payload's `gyro` field, if present, is an object (so that
`payload.get("gyro", {}).get(...)` does not raise). -/
def gyroOkB (p : Json) : Bool :=
  match p with
  | .obj fs =>
    match lookupField fs "gyro" with
    | none => true
    | some (.obj _) => true
    | some _ => false
  | _ => false

/- ── REST endpoints (lines 199-364) ─────────────────────────────────── -/

/-- An HTTP response: Flask's `jsonify(...)` body with its status code
(200 when no explicit status is given). -/
structure Response where
  status : Nat
  body : Json

/-- The `jsonify({"error": ...}), 500` responses every endpoint returns
from its `except` handler or its `mongo_db is None` guard. -/
def errResp (m : String) : Response :=
  { status := 500, body := .obj [("error", .str m)] }

/-- A 200 response. -/
def okResp (b : Json) : Response :=
  { status := 200, body := b }

/-- The storage layer as an endpoint sees it: `disconnected` models
`mongo_db is None`; `connected store failing` models a reachable store
whose queries all raise when `failing` is set (storage unreachable
mid-request). -/
inductive DB where
  | disconnected
  | connected (store : Store) (failing : Bool)

/-- Lines 203-207, `serialize(doc)`: the full stored document with
`_id` stringified and `received_at` ISO-formatted. -/
def serialize (r : StoredGps) : Json :=
  .obj [("_id", .str (toString r.oid)),
        ("timestamp", r.doc.timestamp),
        ("session", r.doc.session),
        ("lat", r.doc.lat),
        ("lon", r.doc.lon),
        ("received_at", .str (isoformat r.doc.received_at))]

/-- The projection of line 256 (`_id` excluded) with the in-place
`received_at` ISO-formatting of line 261. -/
def projImu (r : StoredImu) : Json :=
  .obj [("timestamp", r.doc.timestamp),
        ("session", r.doc.session),
        ("ax", r.doc.ax), ("ay", r.doc.ay), ("az", r.doc.az),
        ("gx", r.doc.gx), ("gy", r.doc.gy), ("gz", r.doc.gz),
        ("received_at", .str (isoformat r.doc.received_at))]

/-- The projection of line 302 (`_id` excluded) with the in-place
`received_at` ISO-formatting of line 307. -/
def projGps (r : StoredGps) : Json :=
  .obj [("timestamp", r.doc.timestamp),
        ("session", r.doc.session),
        ("lat", r.doc.lat), ("lon", r.doc.lon),
        ("received_at", .str (isoformat r.doc.received_at))]

/-- MongoDB equality of a query's `session` value against a stored
`session` field: numeric against numeric, string against string. -/
def sessionValMatches : SessionVal → Json → Bool
  | .int n, .num q => q == (n : ℚ)
  | .str s, .str t => s == t
  | _, _ => false

/-- A stored `received_at` satisfies the `$gte`/`$lte` bounds present. -/
def timeOk (tf : TimeFilter) (t : DT) : Bool :=
  (match tf.gte with | none => true | some g => g ≤ t) &&
  (match tf.lte with | none => true | some u => t ≤ u)

/-- A stored record matches the filter document built by `_build_query`. -/
def queryMatches (q : Query) (sess : Json) (t : DT) : Bool :=
  (match q.session with | none => true | some sv => sessionValMatches sv sess) &&
  (match q.received_at with | none => true | some tf => timeOk tf t)

/-- PyMongo `.limit(n)`: `0` means no limit, a negative `n` caps at
`|n|`. -/
def applyLimit {α : Type} (n : Int) (xs : List α) : List α :=
  if n = 0 then xs else xs.take n.natAbs

/-- Insertion into a list sorted by `le` (the generic sorting helper the
endpoint embeddings use for Mongo's `sort`). -/
def orderedInsertBy {α : Type} (le : α → α → Bool) (x : α) : List α → List α
  | [] => [x]
  | y :: ys => if le x y then x :: y :: ys else y :: orderedInsertBy le x ys

/-- Insertion sort by a boolean comparison. -/
def insertionSortBy {α : Type} (le : α → α → Bool) : List α → List α
  | [] => []
  | x :: xs => orderedInsertBy le x (insertionSortBy le xs)

/-- Python `a < b` on JSON session values: numbers compare numerically
(with a boolean standing for its numeric value, as in Python, where
`bool` is an `int` subclass), strings compare lexicographically, and
every other pairing — `None` with anything, a number with a string,
cross-kind pairs generally — raises `TypeError`, exactly as Python
comparison does. -/
def pyLt : Json → Json → Except PyErr Bool
  | .num a, .num b => .ok (decide (a < b))
  | .num a, .bool b => .ok (decide (a < (cond b 1 0 : ℚ)))
  | .bool a, .num b => .ok (decide ((cond a 1 0 : ℚ) < b))
  | .bool a, .bool b => .ok (decide ((cond a 1 0 : ℚ) < (cond b 1 0 : ℚ)))
  | .str a, .str b => .ok (decide (a < b))
  | _, _ => .error (.other "TypeError: unorderable types")

/-- Insertion of a value into a descending-sorted list by Python
comparison, propagating the `TypeError` of an ill-typed comparison: the
new value goes before the first stored value smaller than it. -/
def pyOrderedInsertDesc (x : Json) : List Json → Except PyErr (List Json)
  | [] => .ok [x]
  | y :: ys =>
    match pyLt y x with
    | .error e => .error e
    | .ok b =>
      if b then .ok (x :: y :: ys)
      else
        match pyOrderedInsertDesc x ys with
        | .error e => .error e
        | .ok l => .ok (y :: l)

/-- Python `sorted(values, reverse=True)`: descending sort by Python
comparison.  It succeeds with the descending order when the performed
comparisons are all well-typed and raises `TypeError` otherwise, as
CPython does.  (CPython's sort performs a different comparison schedule;
on all-comparable inputs both succeed with the same set ordering, and on
the two-element incomparable inputs the claims use, both raise.) -/
def pySortedDesc : List Json → Except PyErr (List Json)
  | [] => .ok []
  | x :: xs =>
    match pySortedDesc xs with
    | .error e => .error e
    | .ok l => pyOrderedInsertDesc x l

/-- Python `==` on hashable JSON values (the only values a Python `set`
can hold; arrays/objects are unhashable and would raise before reaching
a set).  As in Python, a boolean equals its numeric value. -/
def jeqAtom (x y : Json) : Bool :=
  match x, y with
  | .null, .null => true
  | .bool a, .bool b => a == b
  | .bool a, .num b => (cond a 1 0 : ℚ) == b
  | .num a, .bool b => a == (cond b 1 0 : ℚ)
  | .num a, .num b => a == b
  | .str a, .str b => a == b
  | _, _ => false

/-- Membership up to `jeqAtom`. -/
def jmemAtom (x : Json) : List Json → Bool
  | [] => false
  | y :: ys => jeqAtom x y || jmemAtom x ys

/-- Distinct values of a list, in first-occurrence-last order (the shape
of `List.dedup`), modelling both Mongo `distinct` and Python `set`. -/
def dedupAtoms : List Json → List Json
  | [] => []
  | x :: xs => if jmemAtom x (dedupAtoms xs) then dedupAtoms xs else x :: dedupAtoms xs

/-- Line 243, `sorted(set(imu_s) | set(gps_s), reverse=True)`: the
deduplicated union of the two distinct-value lists sorted descending by
Python comparison.  A union mixing incomparable kinds (e.g. a numeric
and a string session) raises `TypeError`, which the endpoint's handler
turns into the structured 500 error. -/
def sortedSetUnionDesc (a b : List Json) : Except PyErr (List Json) :=
  pySortedDesc (dedupAtoms (a ++ b))

/-- Lines 234-246, the `/api/sessions` endpoint.  The `sorted` call at
line 243 runs inside the `try` block, so its `TypeError` on a
mixed-kind session union is caught at line 245 and becomes the
structured 500 error. -/
def sessions (db : DB) : Response :=
  match db with
  | .disconnected => errResp "MongoDB not connected"
  | .connected s failing =>
    if failing then errResp "storage query failed"
    else
      match sortedSetUnionDesc
          (dedupAtoms (s.imu.map (fun r => r.doc.session)))
          (dedupAtoms (s.gps.map (fun r => r.doc.session))) with
      | .error e => errResp e.msg
      | .ok l => okResp (.arr l)

/-- Lines 248-264, the `/api/imu` endpoint: build the query (a raised
`ValueError` is caught by the endpoint's handler), then list matching
records sorted ascending by `received_at`, capped at `limit`, projected
without `_id`. -/
def get_imu (db : DB) (args : Args) (now : DT) : Response :=
  match db with
  | .disconnected => errResp "MongoDB not connected"
  | .connected s failing =>
    match _build_query args now with
    | .error e => errResp e.msg
    | .ok ql =>
      if failing then errResp "storage query failed"
      else okResp (.arr ((applyLimit ql.2 (insertionSortBy
        (fun r1 r2 => r1.doc.received_at ≤ r2.doc.received_at)
        (s.imu.filter (fun r => queryMatches ql.1 r.doc.session r.doc.received_at)))).map projImu))

/-- Sum of a list of rationals. -/
def listSum (xs : List ℚ) : ℚ := xs.foldl (fun a b => a + b) 0

/-- Minimum of a list of rationals, `none` when empty (Mongo `$min`
yields `null` with no numeric input). -/
def listMin (xs : List ℚ) : Option ℚ :=
  xs.foldl (fun a b => match a with | none => some b | some m => some (min m b)) none

/-- Maximum of a list of rationals, `none` when empty. -/
def listMax (xs : List ℚ) : Option ℚ :=
  xs.foldl (fun a b => match a with | none => some b | some m => some (max m b)) none

/-- The numeric reading of a JSON value (Mongo's aggregation operators
skip non-numeric field values). -/
def asNum : Json → Option ℚ
  | .num q => some q
  | _ => none

/-- An optional number as a JSON value, `null` when absent. -/
def optNum : Option ℚ → Json
  | none => .null
  | some q => .num q

/-- The `avg`/`min`/`max` triple of one IMU channel in the `$group` stage
of lines 275-284. -/
def aggFields (tag : String) (vals : List ℚ) : List (String × Json) :=
  [(tag ++ "_avg", match vals with | [] => Json.null | _ => .num (listSum vals / (vals.length : ℚ))),
   (tag ++ "_min", optNum (listMin vals)),
   (tag ++ "_max", optNum (listMax vals))]

/-- Lines 266-291, the `/api/imu/stats` endpoint: a single aggregate row
over the filtered set, or `{}` when the filtered set is empty. -/
def imu_stats (db : DB) (args : Args) (now : DT) : Response :=
  match db with
  | .disconnected => errResp "MongoDB not connected"
  | .connected s failing =>
    match _build_query args now with
    | .error e => errResp e.msg
    | .ok ql =>
      if failing then errResp "storage query failed"
      else
        match s.imu.filter (fun r => queryMatches ql.1 r.doc.session r.doc.received_at) with
        | [] => okResp (.obj [])
        | docs =>
          okResp (.obj ([("count", Json.num (docs.length : ℚ))]
            ++ aggFields "ax" (docs.filterMap (fun r => asNum r.doc.ax))
            ++ aggFields "ay" (docs.filterMap (fun r => asNum r.doc.ay))
            ++ aggFields "az" (docs.filterMap (fun r => asNum r.doc.az))
            ++ aggFields "gx" (docs.filterMap (fun r => asNum r.doc.gx))
            ++ aggFields "gy" (docs.filterMap (fun r => asNum r.doc.gy))
            ++ aggFields "gz" (docs.filterMap (fun r => asNum r.doc.gz))))

/-- Lines 294-310, the `/api/gps` endpoint. -/
def get_gps (db : DB) (args : Args) (now : DT) : Response :=
  match db with
  | .disconnected => errResp "MongoDB not connected"
  | .connected s failing =>
    match _build_query args now with
    | .error e => errResp e.msg
    | .ok ql =>
      if failing then errResp "storage query failed"
      else okResp (.arr ((applyLimit ql.2 (insertionSortBy
        (fun r1 r2 => r1.doc.received_at ≤ r2.doc.received_at)
        (s.gps.filter (fun r => queryMatches ql.1 r.doc.session r.doc.received_at)))).map projGps))

/-- Line 318, `find_one(sort=[("received_at", -1)])`: a record with the
greatest `received_at` (the earliest-inserted one on ties), `none` on an
empty collection. -/
def findLatest : List StoredGps → Option StoredGps
  | [] => none
  | r :: rs =>
    match findLatest rs with
    | none => some r
    | some m => if r.doc.received_at < m.doc.received_at then some m else some r

/-- Lines 312-323, the `/api/gps/latest` endpoint.  The request's filter
parameters are part of the request (`args`) but the handler never reads
them: the lookup is unfiltered. -/
def gps_latest (db : DB) (_args : Args) : Response :=
  match db with
  | .disconnected => errResp "MongoDB not connected"
  | .connected s failing =>
    if failing then errResp "storage query failed"
    else
      match findLatest s.gps with
      | none => okResp .null
      | some r => okResp (serialize r)

/-- Lines 326-338, the `/api/summary` endpoint. -/
def summary (db : DB) (args : Args) (now : DT) : Response :=
  match db with
  | .disconnected => errResp "MongoDB not connected"
  | .connected s failing =>
    match _build_query args now with
    | .error e => errResp e.msg
    | .ok ql =>
      if failing then errResp "storage query failed"
      else okResp (.obj
        [("imu_count", .num ((s.imu.filter (fun r => queryMatches ql.1 r.doc.session r.doc.received_at)).length : ℚ)),
         ("gps_count", .num ((s.gps.filter (fun r => queryMatches ql.1 r.doc.session r.doc.received_at)).length : ℚ))])

/-- The UTC calendar day (epoch-day number) of an instant, the value the
`$year`/`$month`/`$dayOfMonth` grouping key of lines 348-352 determines. -/
def epochDay (t : DT) : Int := t.fdiv 86400000000

/-- Rendering of line 361, `f"{y:04d}-{m:02d}-{d:02d}"`. -/
def dayString (z : Int) : String :=
  let c := civilFromDays z
  pad4 c.1.toNat ++ "-" ++ pad2 c.2.1 ++ "-" ++ pad2 c.2.2

/-- The per-kind pipeline of lines 347-355: distinct days, descending,
capped at 90.  (Mongo sorts the `{y, m, d}` group keys lexicographically,
which is exactly the epoch-day order.) -/
def daysAggPerKind (ts : List DT) : List String :=
  (applyLimit 90 (insertionSortBy (fun a b : Int => b ≤ a) (ts.map epochDay).dedup)).map dayString

/-- Lines 341-364, the `/api/days` endpoint: the union of the two capped
per-kind day sets, sorted descending as strings. -/
def available_days (db : DB) : Response :=
  match db with
  | .disconnected => errResp "MongoDB not connected"
  | .connected s failing =>
    if failing then errResp "storage query failed"
    else
      okResp (.arr ((insertionSortBy (fun a b : String => b ≤ a)
        ((daysAggPerKind (s.imu.map (fun r => r.doc.received_at))
          ++ daysAggPerKind (s.gps.map (fun r => r.doc.received_at))).dedup)).map .str))

/-- Lines 209-231, the `/api/health` endpoint.  `ready` is
`mongo_ready.is_set()`.  Note the HTTP status is 200 and the top-level
`status` field is `"ok"` on every path; only the `mongo` field reflects
a storage failure. -/
def health (db : DB) (ready : Bool) : Response :=
  match db with
  | .disconnected =>
    okResp (.obj [("status", .str "ok"), ("mongo", .str "error"),
                  ("mongo_details", .str "mongo_db is None"), ("mongo_ready", .bool ready)])
  | .connected _ failing =>
    if failing then
      okResp (.obj [("status", .str "ok"), ("mongo", .str "error"),
                    ("mongo_details", .str "ping failed"), ("mongo_ready", .bool ready)])
    else
      okResp (.obj [("status", .str "ok"), ("mongo", .str "ok"),
                    ("mongo_details", .str "Connected"), ("mongo_ready", .bool ready)])

/-- A structured error response: status 500 with an `{"error": ...}`
body, the shape every endpoint's failure paths produce. -/
def isStructuredError (r : Response) : Prop :=
  r.status = 500 ∧ ∃ m, r.body = Json.obj [("error", Json.str m)]

/-- An HTTP 4xx client-error status. -/
def isClientErrorStatus (n : Nat) : Prop := 400 ≤ n ∧ n < 500

/- ── Concrete inputs used by witnesses and counterexamples ──────────── -/

/-- The fields of a valid IMU payload with all three acceleration axes
and no gyro. -/
def fsGoodW : List (String × Json) :=
  [("timestamp", .num 123), ("session", .num 1),
   ("acc", .obj [("x", .num 1), ("y", .num 2), ("z", .num 3)])]

/-- A valid IMU payload with all three acceleration axes and no gyro. -/
def pGoodW : Json := .obj fsGoodW

/-- An IMU payload with a complete `acc` but a non-dict `gyro` value. -/
def pBadGyroW : Json :=
  .obj [("acc", .obj [("x", .num 1), ("y", .num 2), ("z", .num 3)]),
        ("gyro", .num 5)]

/-- An IMU payload whose `acc` object lacks the `z` axis. -/
def pNoAzW : Json :=
  .obj [("acc", .obj [("x", .num 1), ("y", .num 2)])]

/-- The ingestion state after a successful startup: storage ready and
connected, empty collections. -/
def stW : IngestState :=
  { ready := true, dbNone := false, nextOid := 0, store := {}, logs := [] }

/-- A live (non-retained) IMU-topic message carrying `pGoodW`. -/
def msgGoodW : Msg := { retain := false, topic := MQTT_TOPIC_IMU, payload := some pGoodW }

/-- A live IMU-topic message carrying `pBadGyroW`. -/
def msgBadGyroW : Msg := { retain := false, topic := MQTT_TOPIC_IMU, payload := some pBadGyroW }

/-- A retained IMU-topic message carrying a perfectly valid payload. -/
def msgRetainedW : Msg := { retain := true, topic := MQTT_TOPIC_IMU, payload := some pGoodW }

/-- Query args selecting session `"7"`. -/
def argsSession7W : Args := { session := some "7" }

/-- Query args with `minutes=10` and a simultaneously supplied malformed
`from_dt`, to exhibit the rolling window's precedence. -/
def argsMinutesW : Args := { minutes := some "10", from_dt := some "garbage" }

/-- Query args with an unparsable `minutes` value and a well-formed
`from_dt`. -/
def argsBadMinutesW : Args := { minutes := some "abc", from_dt := some "2024-01-01" }

/-- Query args with a malformed `from_dt` instant. -/
def argsBadFromW : Args := { from_dt := some "not-a-date" }

/-- A stored GPS fix received at instant 0. -/
def gpsFix0 : StoredGps :=
  { oid := 10,
    doc := { timestamp := .num 1, session := .num 1, lat := .num 4, lon := .num 5,
             received_at := 0 } }

/-- A stored GPS fix received one minute later. -/
def gpsFix1 : StoredGps :=
  { oid := 11,
    doc := { timestamp := .num 2, session := .num 1, lat := .num 6, lon := .num 7,
             received_at := 60000000 } }

/-- A stored IMU record. -/
def imuRec0 : StoredImu :=
  { oid := 12,
    doc := { timestamp := .num 1, session := .num 1, ax := .num 1, ay := .num 2,
             az := .num 3, gx := .num 0, gy := .num 0, gz := .num 0, received_at := 0 } }

/-- A store holding one IMU record and two GPS fixes a minute apart. -/
def storeW : Store := { imu := [imuRec0], gps := [gpsFix0, gpsFix1] }

/-- A stored GPS fix whose producer used a textual session identifier. -/
def gpsFixStrW : StoredGps :=
  { oid := 13,
    doc := { timestamp := .null, session := .str "a", lat := .num 0, lon := .num 0,
             received_at := 5 } }

/-- A store whose IMU records use a numeric session and whose GPS records
use a string session — the mixed-type situation the data model allows. -/
def storeMixedW : Store := { imu := [imuRec0], gps := [gpsFixStrW] }

/- ── Helper lemmas ──────────────────────────────────────────────────── -/

/-- Every `errResp` is a structured error. -/
theorem isStructuredError_errResp (m : String) : isStructuredError (errResp m) :=
  ⟨rfl, m, rfl⟩

/-- When `_build_query` succeeds, the session predicate of the produced
query is exactly the one the session block computes. -/
theorem build_query_session (a : Args) (now : DT) (q : Query) (lim : Int)
    (h : _build_query a now = Except.ok (q, lim)) :
    q.session = sessionPredOf a.session := by
  unfold _build_query at h
  cases hl : limitOf a.limit with
  | error e => rw [hl] at h; cases h
  | ok l0 =>
    rw [hl] at h
    cases hr : receivedOf a now with
    | error e => rw [hr] at h; cases h
    | ok r0 =>
      rw [hr] at h
      simp only [Except.ok.injEq, Prod.mk.injEq] at h
      rw [← h.1]

/-- A present, non-empty, malformed `from_dt` makes `_build_query` raise
whenever the `minutes` branch does not preempt the explicit branch. -/
theorem build_error_of_bad_from (a : Args) (now : DT) (sf : String)
    (hfrom : a.from_dt = some sf) (hne : sf ≠ "")
    (hbad : fromisoformat (replaceZ sf) = none)
    (hmin : a.minutes = none ∨ a.minutes = some "") :
    ∃ e, _build_query a now = Except.error e := by
  have hpb : parseBound a.from_dt
      = Except.error (.other "ValueError: Invalid isoformat string") := by
    simp only [hfrom, parseBound]
    rw [if_pos hne, hbad]
  have hft : fromToFilter a
      = Except.error (.other "ValueError: Invalid isoformat string") := by
    simp only [fromToFilter, hpb]
  have hrec : receivedOf a now
      = Except.error (.other "ValueError: Invalid isoformat string") := by
    rcases hmin with h0 | h0 <;> simp [receivedOf, h0, hft]
  cases hl : limitOf a.limit with
  | error e2 => exact ⟨e2, by simp only [_build_query, hl]⟩
  | ok l0 =>
    exact ⟨.other "ValueError: Invalid isoformat string",
           by simp only [_build_query, hl, hrec]⟩

/-- The four `_build_query`-using endpoints produce a structured error
whenever the storage layer raises on queries. -/
theorem failing_endpoints_structured (s : Store) (a : Args) (now : DT) :
    isStructuredError (get_imu (DB.connected s true) a now)
    ∧ isStructuredError (imu_stats (DB.connected s true) a now)
    ∧ isStructuredError (get_gps (DB.connected s true) a now)
    ∧ isStructuredError (summary (DB.connected s true) a now) := by
  cases hb : _build_query a now with
  | error e =>
    refine ⟨?_, ?_, ?_, ?_⟩ <;>
      simp only [get_imu, imu_stats, get_gps, summary, hb] <;>
      exact isStructuredError_errResp _
  | ok ql =>
    refine ⟨?_, ?_, ?_, ?_⟩ <;>
      simp only [get_imu, imu_stats, get_gps, summary, hb, if_true] <;>
      exact isStructuredError_errResp _

/-- Unfolding of `on_message` on a live IMU-topic message with a decoded
payload, in the post-startup state. -/
theorem on_message_imu_eq (st : IngestState) (msg : Msg) (p : Json) (t : DT)
    (hr : msg.retain = false) (hready : st.ready = true)
    (htopic : msg.topic = MQTT_TOPIC_IMU) (hp : msg.payload = some p)
    (hdb : st.dbNone = false) :
    on_message st msg t =
      match imuDocOf p t with
      | .ok doc =>
        { st with
          store := { st.store with imu := st.store.imu ++ [{ oid := st.nextOid, doc := doc }] },
          nextOid := st.nextOid + 1,
          logs := st.logs ++ ["[MQTT] IMU data saved"] }
      | .error e => { st with logs := st.logs ++ [dropLog e] } := by
  simp [on_message, hr, hready, htopic, hp, hdb]

/-- A payload with a complete `acc` object and an absent-or-dict `gyro`
builds an IMU document whose `received_at` is the server instant. -/
theorem imuDocOf_ok_of_complete (p : Json) (t : DT)
    (hacc : accCompleteB p = true) (hgy : gyroOkB p = true) :
    ∃ d, imuDocOf p t = Except.ok d ∧ d.received_at = t := by
  cases p with
  | obj fs =>
    cases h1 : lookupField fs "acc" with
    | none => simp [accCompleteB, h1] at hacc
    | some acc =>
      cases acc with
      | obj a =>
        cases h2 : lookupField a "x" with
        | none => simp [accCompleteB, h1, h2] at hacc
        | some ax =>
          cases h3 : lookupField a "y" with
          | none => simp [accCompleteB, h1, h2, h3] at hacc
          | some ay =>
            cases h4 : lookupField a "z" with
            | none => simp [accCompleteB, h1, h2, h3, h4] at hacc
            | some az =>
              cases h5 : lookupField fs "gyro" with
              | none =>
                exact ⟨{ timestamp := (lookupField fs "timestamp").getD .null,
                         session := (lookupField fs "session").getD .null,
                         ax := ax, ay := ay, az := az,
                         gx := .num 0, gy := .num 0, gz := .num 0, received_at := t },
                  by simp only [imuDocOf, h1, h2, h3, h4, h5,
                    Option.getD_none, lookupField], rfl⟩
              | some gv =>
                cases gv with
                | obj g =>
                  exact ⟨{ timestamp := (lookupField fs "timestamp").getD .null,
                           session := (lookupField fs "session").getD .null,
                           ax := ax, ay := ay, az := az,
                           gx := (lookupField g "x").getD (.num 0),
                           gy := (lookupField g "y").getD (.num 0),
                           gz := (lookupField g "z").getD (.num 0), received_at := t },
                    by simp only [imuDocOf, h1, h2, h3, h4, h5, Option.getD_some], rfl⟩
                | null => simp [gyroOkB, h5] at hgy
                | bool b => simp [gyroOkB, h5] at hgy
                | num q => simp [gyroOkB, h5] at hgy
                | str s2 => simp [gyroOkB, h5] at hgy
                | arr xs => simp [gyroOkB, h5] at hgy
      | null => simp [accCompleteB, h1] at hacc
      | bool b => simp [accCompleteB, h1] at hacc
      | num q => simp [accCompleteB, h1] at hacc
      | str s2 => simp [accCompleteB, h1] at hacc
      | arr xs => simp [accCompleteB, h1] at hacc
  | null => simp [accCompleteB] at hacc
  | bool b => simp [accCompleteB] at hacc
  | num q => simp [accCompleteB] at hacc
  | str s2 => simp [accCompleteB] at hacc
  | arr xs => simp [accCompleteB] at hacc

/-- A payload with an incomplete `acc` — or with a present non-dict
`gyro` — makes the document building raise. -/
theorem imuDocOf_drop (p : Json) (t : DT)
    (h : accCompleteB p = false ∨ gyroOkB p = false) :
    ∃ e, imuDocOf p t = Except.error e := by
  cases p with
  | obj fs =>
    cases h1 : lookupField fs "acc" with
    | none => exact ⟨.keyError "acc", by simp only [imuDocOf, h1]⟩
    | some acc =>
      cases acc with
      | obj a =>
        cases h2 : lookupField a "x" with
        | none => exact ⟨.keyError "x", by simp only [imuDocOf, h1, h2]⟩
        | some ax =>
          cases h3 : lookupField a "y" with
          | none => exact ⟨.keyError "y", by simp only [imuDocOf, h1, h2, h3]⟩
          | some ay =>
            cases h4 : lookupField a "z" with
            | none => exact ⟨.keyError "z", by simp only [imuDocOf, h1, h2, h3, h4]⟩
            | some az =>
              cases h5 : lookupField fs "gyro" with
              | none =>
                exfalso
                rcases h with h0 | h0
                · simp [accCompleteB, h1, h2, h3, h4] at h0
                · simp [gyroOkB, h5] at h0
              | some gv =>
                cases gv with
                | obj g =>
                  exfalso
                  rcases h with h0 | h0
                  · simp [accCompleteB, h1, h2, h3, h4] at h0
                  · simp [gyroOkB, h5] at h0
                | null =>
                  exact ⟨.other "AttributeError: object has no attribute get",
                    by simp only [imuDocOf, h1, h2, h3, h4, h5, Option.getD_some]⟩
                | bool b =>
                  exact ⟨.other "AttributeError: object has no attribute get",
                    by simp only [imuDocOf, h1, h2, h3, h4, h5, Option.getD_some]⟩
                | num q =>
                  exact ⟨.other "AttributeError: object has no attribute get",
                    by simp only [imuDocOf, h1, h2, h3, h4, h5, Option.getD_some]⟩
                | str s2 =>
                  exact ⟨.other "AttributeError: object has no attribute get",
                    by simp only [imuDocOf, h1, h2, h3, h4, h5, Option.getD_some]⟩
                | arr xs =>
                  exact ⟨.other "AttributeError: object has no attribute get",
                    by simp only [imuDocOf, h1, h2, h3, h4, h5, Option.getD_some]⟩
      | null =>
        exact ⟨.other "TypeError: value is not subscriptable by string",
          by simp only [imuDocOf, h1]⟩
      | bool b =>
        exact ⟨.other "TypeError: value is not subscriptable by string",
          by simp only [imuDocOf, h1]⟩
      | num q =>
        exact ⟨.other "TypeError: value is not subscriptable by string",
          by simp only [imuDocOf, h1]⟩
      | str s2 =>
        exact ⟨.other "TypeError: value is not subscriptable by string",
          by simp only [imuDocOf, h1]⟩
      | arr xs =>
        exact ⟨.other "TypeError: value is not subscriptable by string",
          by simp only [imuDocOf, h1]⟩
  | null => exact ⟨.other "AttributeError: object has no attribute get", rfl⟩
  | bool b => exact ⟨.other "AttributeError: object has no attribute get", rfl⟩
  | num q => exact ⟨.other "AttributeError: object has no attribute get", rfl⟩
  | str s2 => exact ⟨.other "AttributeError: object has no attribute get", rfl⟩
  | arr xs => exact ⟨.other "AttributeError: object has no attribute get", rfl⟩

/- ── Claim theorems ─────────────────────────────────────────────────── -/

/-- Claim C8: for every message delivered with the broker retained flag
set, the handler discards it without processing — no record is persisted
to either collection, regardless of payload validity (lines 99-101 return
before any store access). -/
theorem claim_C8 (st : IngestState) (msg : Msg) (t : DT) (h : msg.retain = true) :
    (on_message st msg t).store = st.store := by
  simp [on_message, h]

/-- Witness for C8: a retained message carrying a fully valid IMU payload
leaves the store untouched. -/
theorem claim_C8_witness :
    msgRetainedW.retain = true ∧ (on_message stW msgRetainedW 7).store = stW.store :=
  ⟨rfl, claim_C8 stW msgRetainedW 7 rfl⟩

/-- Claim C4: the session parameter handling of `_build_query` — absent,
empty or `"all"` produces no session predicate; an integer-parsable value
produces a numeric-equality predicate; any other value produces a
string-equality predicate on the raw string. -/
theorem claim_C4 (a : Args) (now : DT) (q : Query) (lim : Int)
    (h : _build_query a now = Except.ok (q, lim)) :
    ((a.session = none ∨ a.session = some "" ∨ a.session = some "all") → q.session = none)
    ∧ (∀ s n, a.session = some s → ¬(s = "" ∨ s = "all") → parseIntPy s = some n →
        q.session = some (SessionVal.int n))
    ∧ (∀ s, a.session = some s → ¬(s = "" ∨ s = "all") → parseIntPy s = none →
        q.session = some (SessionVal.str s)) := by
  have hs := build_query_session a now q lim h
  refine ⟨?_, ?_, ?_⟩
  · rintro (h0 | h0 | h0) <;> rw [hs, h0] <;> simp [sessionPredOf]
  · intro s n h0 hne hp
    rw [hs, h0]
    simp only [sessionPredOf]
    rw [if_neg hne, hp]
  · intro s h0 hne hp
    rw [hs, h0]
    simp only [sessionPredOf]
    rw [if_neg hne, hp]

/-- Witness for C4: `session="7"` yields the numeric predicate 7. -/
theorem claim_C4_witness :
    _build_query argsSession7W 0
        = Except.ok ({ session := some (SessionVal.int 7), received_at := none }, 2000)
    ∧ ({ session := some (SessionVal.int 7), received_at := none } : Query).session
        = some (SessionVal.int 7) :=
  ⟨rfl,
   (claim_C4 argsSession7W 0 { session := some (SessionVal.int 7), received_at := none }
     2000 rfl).2.1 "7" 7 rfl (by decide) rfl⟩

/-- Counterexample for C5 as stated: a supplied-but-unparsable `minutes`
value makes `_build_query` raise `ValueError` (line 381, `float(minutes)`),
so no rolling predicate is produced — even with a well-formed `from_dt`
also supplied. -/
theorem claim_C5_counterexample :
    _build_query argsBadMinutesW 0
      = Except.error (PyErr.other "ValueError: could not convert string to float") := rfl

/-- Claim C5 (amended): whenever `minutes` is supplied with a non-empty
value that parses as a number (and `limit` parses), `_build_query`
produces the rolling predicate `received_at ≥ now − minutes`, whatever
`from_dt`/`to_dt` hold — the explicit bounds are never read, which is the
claimed precedence. -/
theorem claim_C5_amended (a : Args) (now : DT) (m : String) (num : Int) (k : Nat) (lim : Int)
    (hmin : a.minutes = some m) (hne : m ≠ "") (hp : parseFloatPy m = some (num, k))
    (hlim : limitOf a.limit = Except.ok lim) :
    ∃ q : Query, _build_query a now = Except.ok (q, lim)
      ∧ q.received_at = some { gte := some (now - minutesToMicros num k), lte := none } := by
  refine ⟨{ session := sessionPredOf a.session,
            received_at := some { gte := some (now - minutesToMicros num k), lte := none } },
          ?_, rfl⟩
  have hrec : receivedOf a now
      = Except.ok (some { gte := some (now - minutesToMicros num k), lte := none }) := by
    simp only [receivedOf, hmin]
    rw [if_pos hne, hp]
  simp only [_build_query, hlim, hrec]

/-- Witness for C5 (amended): `minutes="10"` with a malformed `from_dt`
simultaneously supplied still yields the rolling 10-minute window. -/
theorem claim_C5_witness :
    argsMinutesW.minutes = some "10" ∧ parseFloatPy "10" = some (10, 0)
    ∧ limitOf argsMinutesW.limit = Except.ok 2000
    ∧ ∃ q : Query, _build_query argsMinutesW 1000000000 = Except.ok (q, 2000)
      ∧ q.received_at = some { gte := some (1000000000 - minutesToMicros 10 0), lte := none } :=
  ⟨rfl, rfl, rfl,
   claim_C5_amended argsMinutesW 1000000000 "10" 10 0 2000 rfl (by decide) rfl rfl⟩

/-- Counterexample for C2 as stated: a malformed `from_dt` instant makes
`/api/imu` respond with HTTP 500, which is not a 4xx client-error
status. -/
theorem claim_C2_counterexample :
    (get_imu (DB.connected {} false) argsBadFromW 0).status = 500
    ∧ ¬ isClientErrorStatus (get_imu (DB.connected {} false) argsBadFromW 0).status := by
  refine ⟨rfl, ?_⟩
  intro h
  exact absurd h.2 (by decide)

/-- Claim C2 (amended): for every request to a `_build_query`-using
endpoint whose `from_dt` is present, non-empty and malformed (and whose
`minutes` parameter does not preempt the explicit branch), the request
fails with a structured `{"error": ...}` response at status 500 — a
client-visible rejection, though a server-error status rather than a
4xx — and the handler returns normally (no crash escapes). -/
theorem claim_C2_amended (s : Store) (b : Bool) (a : Args) (now : DT) (sf : String)
    (hfrom : a.from_dt = some sf) (hne : sf ≠ "")
    (hbad : fromisoformat (replaceZ sf) = none)
    (hmin : a.minutes = none ∨ a.minutes = some "") :
    isStructuredError (get_imu (DB.connected s b) a now)
    ∧ isStructuredError (imu_stats (DB.connected s b) a now)
    ∧ isStructuredError (get_gps (DB.connected s b) a now)
    ∧ isStructuredError (summary (DB.connected s b) a now) := by
  obtain ⟨e, he⟩ := build_error_of_bad_from a now sf hfrom hne hbad hmin
  refine ⟨?_, ?_, ?_, ?_⟩ <;>
    simp only [get_imu, imu_stats, get_gps, summary, he] <;>
    exact isStructuredError_errResp _

/-- Witness for C2 (amended): `from_dt="not-a-date"` produces the
structured 500 error on `/api/imu`. -/
theorem claim_C2_witness :
    argsBadFromW.from_dt = some "not-a-date"
    ∧ fromisoformat (replaceZ "not-a-date") = none
    ∧ isStructuredError (get_imu (DB.connected {} false) argsBadFromW 0) :=
  ⟨rfl, rfl,
   (claim_C2_amended {} false argsBadFromW 0 "not-a-date" rfl (by decide) rfl (Or.inl rfl)).1⟩

/-- Counterexample for C3 as stated: on storage failure the `health`
endpoint responds with HTTP 200 (a success status) and a top-level
`status` of `"ok"` — not a structured error with a non-success status. -/
theorem claim_C3_counterexample :
    (health (DB.connected {} true) true).status = 200
    ∧ ¬ isStructuredError (health (DB.connected {} true) true) := by
  refine ⟨rfl, ?_⟩
  intro h
  exact absurd h.1 (by decide)

/-- Claim C3 (amended): on storage failure (storage unreachable, i.e.
`mongo_db is None`, or the storage layer raising on every query) each of
the seven data endpoints responds with the structured `{"error": ...}`
object and status 500, while `health` — the exception the original claim
overlooks — always responds 200 with `status="ok"` and reports the
failure only in its `mongo` field.  All endpoints are total functions
here, so no unhandled fault escapes the component boundary. -/
theorem claim_C3_amended (s : Store) (a : Args) (now : DT) (rdy : Bool) :
    isStructuredError (sessions DB.disconnected)
    ∧ isStructuredError (sessions (DB.connected s true))
    ∧ isStructuredError (get_imu DB.disconnected a now)
    ∧ isStructuredError (get_imu (DB.connected s true) a now)
    ∧ isStructuredError (imu_stats DB.disconnected a now)
    ∧ isStructuredError (imu_stats (DB.connected s true) a now)
    ∧ isStructuredError (get_gps DB.disconnected a now)
    ∧ isStructuredError (get_gps (DB.connected s true) a now)
    ∧ isStructuredError (gps_latest DB.disconnected a)
    ∧ isStructuredError (gps_latest (DB.connected s true) a)
    ∧ isStructuredError (summary DB.disconnected a now)
    ∧ isStructuredError (summary (DB.connected s true) a now)
    ∧ isStructuredError (available_days DB.disconnected)
    ∧ isStructuredError (available_days (DB.connected s true))
    ∧ (health DB.disconnected rdy).status = 200
    ∧ (health (DB.connected s true) rdy).status = 200
    ∧ (∃ fs, (health DB.disconnected rdy).body = Json.obj fs
        ∧ lookupField fs "status" = some (Json.str "ok")
        ∧ lookupField fs "mongo" = some (Json.str "error"))
    ∧ (∃ fs, (health (DB.connected s true) rdy).body = Json.obj fs
        ∧ lookupField fs "status" = some (Json.str "ok")
        ∧ lookupField fs "mongo" = some (Json.str "error")) := by
  obtain ⟨h1, h2, h3, h4⟩ := failing_endpoints_structured s a now
  exact ⟨isStructuredError_errResp _, isStructuredError_errResp _,
         isStructuredError_errResp _, h1,
         isStructuredError_errResp _, h2,
         isStructuredError_errResp _, h3,
         isStructuredError_errResp _, isStructuredError_errResp _,
         isStructuredError_errResp _, h4,
         isStructuredError_errResp _, isStructuredError_errResp _,
         rfl, rfl,
         ⟨_, rfl, rfl, rfl⟩, ⟨_, rfl, rfl, rfl⟩⟩

/-- Counterexample for C1 as stated: a live IMU-topic message whose
payload has all three acceleration axes but a non-dict `gyro` value is
dropped (the `.get` chain of lines 125-127 raises `AttributeError`,
caught at line 146), so zero records are inserted where the claim
requires exactly one. -/
theorem claim_C1_counterexample :
    msgBadGyroW.retain = false ∧ stW.ready = true
    ∧ msgBadGyroW.topic = MQTT_TOPIC_IMU ∧ msgBadGyroW.payload = some pBadGyroW
    ∧ accCompleteB pBadGyroW = true
    ∧ (on_message stW msgBadGyroW 7).store.imu = [] :=
  ⟨rfl, rfl, rfl, rfl, rfl, rfl⟩

/-- Claim C1 (amended): for every live IMU-topic message that passes the
readiness wait and decodes as JSON, in the post-startup state
(`mongo_db` is not `None`): with `acc.x`, `acc.y`, `acc.z` all present
and any present `gyro` value being an object, exactly one record is
appended to the `imu` collection, its `received_at` is the server's
observation instant, and the `gps` collection is untouched; with an
acceleration axis absent — or the `gyro` value present but not an
object — the store is unchanged and exactly one drop line is logged. -/
theorem claim_C1_amended (st : IngestState) (msg : Msg) (t : DT) (p : Json)
    (hr : msg.retain = false) (hready : st.ready = true)
    (htopic : msg.topic = MQTT_TOPIC_IMU) (hp : msg.payload = some p)
    (hdb : st.dbNone = false) :
    (accCompleteB p = true → gyroOkB p = true →
      ∃ rec : StoredImu, (on_message st msg t).store.imu = st.store.imu ++ [rec]
        ∧ rec.doc.received_at = t
        ∧ (on_message st msg t).store.gps = st.store.gps)
    ∧ (accCompleteB p = false →
      (on_message st msg t).store = st.store
      ∧ ∃ line, (on_message st msg t).logs = st.logs ++ [line])
    ∧ (accCompleteB p = true → gyroOkB p = false →
      (on_message st msg t).store = st.store
      ∧ ∃ line, (on_message st msg t).logs = st.logs ++ [line]) := by
  have heq := on_message_imu_eq st msg p t hr hready htopic hp hdb
  refine ⟨?_, ?_, ?_⟩
  · intro hacc hgy
    obtain ⟨d, hd, hrt⟩ := imuDocOf_ok_of_complete p t hacc hgy
    rw [heq, hd]
    exact ⟨{ oid := st.nextOid, doc := d }, rfl, hrt, rfl⟩
  · intro hacc
    obtain ⟨e, he⟩ := imuDocOf_drop p t (Or.inl hacc)
    rw [heq, he]
    exact ⟨rfl, dropLog e, rfl⟩
  · intro hacc hgy
    obtain ⟨e, he⟩ := imuDocOf_drop p t (Or.inr hgy)
    rw [heq, he]
    exact ⟨rfl, dropLog e, rfl⟩

/-- Witness for C1 (amended): a valid acceleration-only payload is
persisted exactly once with the server instant. -/
theorem claim_C1_witness :
    accCompleteB pGoodW = true ∧ gyroOkB pGoodW = true
    ∧ ∃ rec : StoredImu, (on_message stW msgGoodW 7).store.imu = stW.store.imu ++ [rec]
      ∧ rec.doc.received_at = 7
      ∧ (on_message stW msgGoodW 7).store.gps = stW.store.gps :=
  ⟨rfl, rfl,
   (claim_C1_amended stW msgGoodW 7 pGoodW rfl rfl rfl rfl rfl).1 rfl rfl⟩

/-- Claim C9: an IMU payload with all three acceleration axes whose
`gyro` sub-object is absent — or present as an object with some
components missing — is not rejected: a record is inserted, and every
missing gyro component defaults to 0.0 in it. -/
theorem claim_C9 (st : IngestState) (msg : Msg) (t : DT) (fs : List (String × Json))
    (hr : msg.retain = false) (hready : st.ready = true)
    (htopic : msg.topic = MQTT_TOPIC_IMU) (hp : msg.payload = some (Json.obj fs))
    (hdb : st.dbNone = false)
    (hacc : accCompleteB (Json.obj fs) = true)
    (hgyro : gyroOkB (Json.obj fs) = true) :
    ∃ rec : StoredImu, (on_message st msg t).store.imu = st.store.imu ++ [rec]
      ∧ (lookupField fs "gyro" = none →
          rec.doc.gx = Json.num 0 ∧ rec.doc.gy = Json.num 0 ∧ rec.doc.gz = Json.num 0)
      ∧ (∀ g, lookupField fs "gyro" = some (Json.obj g) →
          (lookupField g "x" = none → rec.doc.gx = Json.num 0)
          ∧ (lookupField g "y" = none → rec.doc.gy = Json.num 0)
          ∧ (lookupField g "z" = none → rec.doc.gz = Json.num 0)) := by
  have heq := on_message_imu_eq st msg (Json.obj fs) t hr hready htopic hp hdb
  cases h1 : lookupField fs "acc" with
  | none => simp [accCompleteB, h1] at hacc
  | some acc =>
    cases acc with
    | obj a =>
      cases h2 : lookupField a "x" with
      | none => simp [accCompleteB, h1, h2] at hacc
      | some ax =>
        cases h3 : lookupField a "y" with
        | none => simp [accCompleteB, h1, h2, h3] at hacc
        | some ay =>
          cases h4 : lookupField a "z" with
          | none => simp [accCompleteB, h1, h2, h3, h4] at hacc
          | some az =>
            cases h5 : lookupField fs "gyro" with
            | none =>
              have hd : imuDocOf (Json.obj fs) t = Except.ok
                  { timestamp := (lookupField fs "timestamp").getD .null,
                    session := (lookupField fs "session").getD .null,
                    ax := ax, ay := ay, az := az,
                    gx := .num 0, gy := .num 0, gz := .num 0, received_at := t } := by
                simp only [imuDocOf, h1, h2, h3, h4, h5, Option.getD_none, lookupField]
              refine ⟨{ oid := st.nextOid,
                        doc := { timestamp := (lookupField fs "timestamp").getD .null,
                                 session := (lookupField fs "session").getD .null,
                                 ax := ax, ay := ay, az := az,
                                 gx := .num 0, gy := .num 0, gz := .num 0,
                                 received_at := t } }, ?_, ?_, ?_⟩
              · rw [heq, hd]
              · intro _
                exact ⟨rfl, rfl, rfl⟩
              · intro g hg
                exact Option.noConfusion hg
            | some gv =>
              cases gv with
              | obj g0 =>
                have hd : imuDocOf (Json.obj fs) t = Except.ok
                    { timestamp := (lookupField fs "timestamp").getD .null,
                      session := (lookupField fs "session").getD .null,
                      ax := ax, ay := ay, az := az,
                      gx := (lookupField g0 "x").getD (.num 0),
                      gy := (lookupField g0 "y").getD (.num 0),
                      gz := (lookupField g0 "z").getD (.num 0), received_at := t } := by
                  simp only [imuDocOf, h1, h2, h3, h4, h5, Option.getD_some]
                refine ⟨{ oid := st.nextOid,
                          doc := { timestamp := (lookupField fs "timestamp").getD .null,
                                   session := (lookupField fs "session").getD .null,
                                   ax := ax, ay := ay, az := az,
                                   gx := (lookupField g0 "x").getD (.num 0),
                                   gy := (lookupField g0 "y").getD (.num 0),
                                   gz := (lookupField g0 "z").getD (.num 0),
                                   received_at := t } }, ?_, ?_, ?_⟩
                · rw [heq, hd]
                · intro h0
                  exact Option.noConfusion h0
                · intro g hg
                  simp only [Option.some.injEq, Json.obj.injEq] at hg
                  subst hg
                  refine ⟨fun hx => ?_, fun hy => ?_, fun hz => ?_⟩
                  · show (lookupField g0 "x").getD (.num 0) = Json.num 0
                    rw [hx]
                    rfl
                  · show (lookupField g0 "y").getD (.num 0) = Json.num 0
                    rw [hy]
                    rfl
                  · show (lookupField g0 "z").getD (.num 0) = Json.num 0
                    rw [hz]
                    rfl
              | null => simp [gyroOkB, h5] at hgyro
              | bool b => simp [gyroOkB, h5] at hgyro
              | num q => simp [gyroOkB, h5] at hgyro
              | str s2 => simp [gyroOkB, h5] at hgyro
              | arr xs => simp [gyroOkB, h5] at hgyro
    | null => simp [accCompleteB, h1] at hacc
    | bool b => simp [accCompleteB, h1] at hacc
    | num q => simp [accCompleteB, h1] at hacc
    | str s2 => simp [accCompleteB, h1] at hacc
    | arr xs => simp [accCompleteB, h1] at hacc

/-- Witness for C9: `ax=1, ay=2, az=3`, no gyro — the stored record has
`gx = gy = gz = 0.0`. -/
theorem claim_C9_witness :
    accCompleteB pGoodW = true ∧ gyroOkB pGoodW = true
    ∧ lookupField fsGoodW "gyro" = none
    ∧ ∃ rec : StoredImu, (on_message stW msgGoodW 7).store.imu = stW.store.imu ++ [rec]
      ∧ rec.doc.gx = Json.num 0 ∧ rec.doc.gy = Json.num 0 ∧ rec.doc.gz = Json.num 0 := by
  refine ⟨rfl, rfl, rfl, ?_⟩
  obtain ⟨rec, h1, h2, _⟩ :=
    claim_C9 stW msgGoodW 7 fsGoodW rfl rfl rfl rfl rfl rfl rfl
  obtain ⟨hx, hy, hz⟩ := h2 rfl
  exact ⟨rec, h1, hx, hy, hz⟩

/-- One-step equation of `findLatest`. -/
theorem findLatest_cons (r : StoredGps) (rs : List StoredGps) :
    findLatest (r :: rs) =
      match findLatest rs with
      | none => some r
      | some m => if r.doc.received_at < m.doc.received_at then some m else some r := rfl

/-- On a non-empty collection, `findLatest` returns a stored fix whose
`received_at` dominates every stored fix. -/
theorem findLatest_spec (l : List StoredGps) (hne : l ≠ []) :
    ∃ r, findLatest l = some r ∧ r ∈ l
      ∧ ∀ r2, r2 ∈ l → r2.doc.received_at ≤ r.doc.received_at := by
  induction l with
  | nil => exact absurd rfl hne
  | cons r rs ih =>
    cases hf : findLatest rs with
    | none =>
      refine ⟨r, by simp only [findLatest_cons, hf], List.mem_cons_self r rs, ?_⟩
      intro r2 h2
      rcases List.mem_cons.mp h2 with h2 | h2
      · subst h2
        exact le_refl _
      · cases rs with
        | nil => cases h2
        | cons a b =>
          obtain ⟨m, hm, _, _⟩ := ih (List.cons_ne_nil a b)
          rw [hf] at hm
          cases hm
    | some m =>
      have hrs : rs ≠ [] := by
        intro h0
        subst h0
        simp [findLatest] at hf
      obtain ⟨m2, hm2, hmem, hmax⟩ := ih hrs
      rw [hf] at hm2
      injection hm2 with hmm
      subst hmm
      by_cases hlt : r.doc.received_at < m.doc.received_at
      · refine ⟨m, ?_, List.mem_cons_of_mem r hmem, ?_⟩
        · simp only [findLatest_cons, hf, if_pos hlt]
        · intro r2 h2
          rcases List.mem_cons.mp h2 with h2 | h2
          · subst h2
            exact le_of_lt hlt
          · exact hmax r2 h2
      · refine ⟨r, ?_, List.mem_cons_self r rs, ?_⟩
        · simp only [findLatest_cons, hf, if_neg hlt]
        · intro r2 h2
          rcases List.mem_cons.mp h2 with h2 | h2
          · subst h2
            exact le_refl _
          · exact le_trans (hmax r2 h2) (not_lt.mp hlt)

/-- Claim C7: the GPS-latest operation ignores the caller's filter
parameters entirely, returns a fix with the greatest `received_at` when
one exists, and a null body when the collection is empty. -/
theorem claim_C7 (s : Store) (a1 a2 : Args) :
    gps_latest (DB.connected s false) a1 = gps_latest (DB.connected s false) a2
    ∧ (s.gps = [] → gps_latest (DB.connected s false) a1 = okResp Json.null)
    ∧ (s.gps ≠ [] →
        ∃ r, r ∈ s.gps
          ∧ (∀ r2, r2 ∈ s.gps → r2.doc.received_at ≤ r.doc.received_at)
          ∧ gps_latest (DB.connected s false) a1 = okResp (serialize r)) := by
  refine ⟨rfl, ?_, ?_⟩
  · intro h0
    simp [gps_latest, h0, findLatest]
  · intro hne
    obtain ⟨r, hr, hmem, hmax⟩ := findLatest_spec s.gps hne
    exact ⟨r, hmem, hmax, by simp [gps_latest, hr]⟩

/-- Witness for C7: of two fixes inserted a minute apart, the later one
is returned, and two very different filter parameter sets give the same
response. -/
theorem claim_C7_witness :
    storeW.gps ≠ []
    ∧ gps_latest (DB.connected storeW false) argsSession7W
      = gps_latest (DB.connected storeW false) argsMinutesW
    ∧ ∃ r, r ∈ storeW.gps
        ∧ (∀ r2, r2 ∈ storeW.gps → r2.doc.received_at ≤ r.doc.received_at)
        ∧ gps_latest (DB.connected storeW false) argsSession7W = okResp (serialize r) := by
  have h := claim_C7 storeW argsSession7W argsMinutesW
  exact ⟨List.cons_ne_nil _ _, h.1, h.2.2 (List.cons_ne_nil _ _)⟩

/-- On numeric values the Python comparison is the rational order. -/
theorem pyLt_num (a b : ℚ) :
    pyLt (Json.num a) (Json.num b) = Except.ok (decide (a < b)) := rfl

/-- Membership test of `jmemAtom` on numeric values. -/
theorem jmemAtom_num_iff (a : ℚ) (l : List ℚ) :
    jmemAtom (Json.num a) (l.map Json.num) = true ↔ a ∈ l := by
  induction l with
  | nil => simp [jmemAtom]
  | cons b bs ih =>
    simp [jmemAtom, jeqAtom, ih, List.mem_cons, Bool.or_eq_true, beq_iff_eq]

/-- `dedupAtoms` on numeric values is `List.dedup`. -/
theorem dedupAtoms_num (l : List ℚ) :
    dedupAtoms (l.map Json.num) = l.dedup.map Json.num := by
  induction l with
  | nil => rfl
  | cons b bs ih =>
    simp only [List.map_cons, dedupAtoms, ih]
    by_cases hb : b ∈ bs
    · have hmem : b ∈ bs.dedup := List.mem_dedup.mpr hb
      rw [if_pos ((jmemAtom_num_iff b bs.dedup).mpr hmem), List.dedup_cons_of_mem hb]
    · have hmem : b ∉ bs.dedup := fun h0 => hb (List.mem_dedup.mp h0)
      rw [if_neg (fun h0 => hmem ((jmemAtom_num_iff b bs.dedup).mp h0)),
          List.dedup_cons_of_not_mem hb, List.map_cons]

/-- Inserting a numeric value that is not already present into a
numeric list is Mathlib's `orderedInsert` for the descending order, and
never raises. -/
theorem pyOrderedInsertDesc_num (a : ℚ) (l : List ℚ) (ha : a ∉ l) :
    pyOrderedInsertDesc (Json.num a) (l.map Json.num)
      = Except.ok ((List.orderedInsert (fun x y : ℚ => x ≥ y) a l).map Json.num) := by
  induction l with
  | nil => rfl
  | cons b bs ih =>
    have hab : a ≠ b := fun h0 => ha (h0 ▸ List.mem_cons_self b bs)
    have hbs : a ∉ bs := fun h0 => ha (List.mem_cons_of_mem b h0)
    simp only [List.map_cons, pyOrderedInsertDesc, pyLt_num, List.orderedInsert]
    by_cases hlt : b < a
    · rw [if_pos (decide_eq_true hlt), if_pos (le_of_lt hlt)]
      rw [List.map_cons, List.map_cons]
    · have hge : ¬ (a ≥ b) := fun hgeb => hab (le_antisymm (not_lt.mp hlt) hgeb)
      rw [if_neg (fun hc => hlt (of_decide_eq_true hc)), if_neg hge, ih hbs]
      rw [List.map_cons]

/-- `pySortedDesc` on a duplicate-free numeric list is Mathlib's
`insertionSort` for the descending order, and never raises. -/
theorem pySortedDesc_num (l : List ℚ) (hl : l.Nodup) :
    pySortedDesc (l.map Json.num)
      = Except.ok ((List.insertionSort (fun x y : ℚ => x ≥ y) l).map Json.num) := by
  induction l with
  | nil => rfl
  | cons b bs ih =>
    obtain ⟨hb, hbs⟩ := List.nodup_cons.mp hl
    have hb2 : b ∉ List.insertionSort (fun x y : ℚ => x ≥ y) bs := fun h0 =>
      hb ((List.perm_insertionSort _ _).mem_iff.mp h0)
    simp only [List.map_cons, pySortedDesc, ih hbs]
    exact pyOrderedInsertDesc_num b _ hb2

/-- The distinct-sessions core on numeric sessions, reduced to rational
lists. -/
theorem sortedSetUnionDesc_num (a b : List ℚ) :
    sortedSetUnionDesc (a.map Json.num) (b.map Json.num)
      = Except.ok
        ((List.insertionSort (fun x y : ℚ => x ≥ y) ((a ++ b).dedup)).map Json.num) := by
  unfold sortedSetUnionDesc
  rw [← List.map_append, dedupAtoms_num, pySortedDesc_num _ (List.nodup_dedup _)]

/-- Counterexample for C6 as stated: with a numeric IMU session set
`{1}` and a string GPS session set `{"a"}` — both allowed by the data
model, which fixes no session type — `sorted(...)` at line 243 raises
`TypeError` on the mixed union, so the endpoint returns the structured
500 error rather than the deduplicated union sorted descending. -/
theorem claim_C6_counterexample :
    sortedSetUnionDesc [Json.num 1] [Json.str "a"]
      = Except.error (PyErr.other "TypeError: unorderable types")
    ∧ (sessions (DB.connected storeMixedW false)).status = 500
    ∧ (sessions (DB.connected storeMixedW false)).body
      = Json.obj [("error", Json.str "TypeError: unorderable types")] :=
  ⟨rfl, rfl, rfl⟩

/-- Claim C6 (amended): for every pair of stored session-value sets of
mutually comparable, numeric values the distinct-sessions operation
returns the deduplicated union sorted strictly descending (set
semantics), and in particular IMU sessions `{1,2}` with GPS sessions
`{2,3}` yield `[3,2,1]`; a union mixing incomparable kinds instead
raises `TypeError`, surfaced as the endpoint's structured 500 error. -/
theorem claim_C6_amended (a b : List ℚ) :
    (∃ r : List ℚ,
        sortedSetUnionDesc (a.map Json.num) (b.map Json.num) = Except.ok (r.map Json.num)
        ∧ r.Sorted (fun x y => x > y)
        ∧ (∀ x : ℚ, x ∈ r ↔ x ∈ a ∨ x ∈ b))
    ∧ sortedSetUnionDesc [Json.num 1, Json.num 2] [Json.num 2, Json.num 3]
      = Except.ok [Json.num 3, Json.num 2, Json.num 1] := by
  constructor
  · refine ⟨List.insertionSort (fun x y : ℚ => x ≥ y) ((a ++ b).dedup),
      sortedSetUnionDesc_num a b, ?_, ?_⟩
    · have hs : (List.insertionSort (fun x y : ℚ => x ≥ y) ((a ++ b).dedup)).Sorted
          (fun x y => x ≥ y) := List.sorted_insertionSort _ _
      have hn : (List.insertionSort (fun x y : ℚ => x ≥ y) ((a ++ b).dedup)).Nodup :=
        (List.perm_insertionSort _ _).nodup_iff.mpr (List.nodup_dedup _)
      exact (hs.and hn).imp (fun h => lt_of_le_of_ne h.1 h.2.symm)
    · intro x
      rw [(List.perm_insertionSort _ _).mem_iff, List.mem_dedup, List.mem_append]
  · rfl

/-- Claim C10: the GPS-latest response includes the storage identifier
`_id` serialized as a string, while the IMU and GPS listing responses
are built from projections that exclude `_id`. -/
theorem claim_C10 (s : Store) (a : Args) (now : DT) (hne : s.gps ≠ []) :
    (∃ r, r ∈ s.gps
        ∧ (gps_latest (DB.connected s false) a).body = serialize r
        ∧ ∃ fs, serialize r = Json.obj fs
            ∧ lookupField fs "_id" = some (Json.str (toString r.oid)))
    ∧ (∀ q lim, _build_query a now = Except.ok (q, lim) →
        (∃ recs : List StoredImu,
            (get_imu (DB.connected s false) a now).body = Json.arr (recs.map projImu))
        ∧ (∃ recs : List StoredGps,
            (get_gps (DB.connected s false) a now).body = Json.arr (recs.map projGps)))
    ∧ (∀ r : StoredImu, ∃ fs, projImu r = Json.obj fs ∧ lookupField fs "_id" = none)
    ∧ (∀ r : StoredGps, ∃ fs, projGps r = Json.obj fs ∧ lookupField fs "_id" = none) := by
  refine ⟨?_, ?_, ?_, ?_⟩
  · obtain ⟨r, hr, hmem, _⟩ := findLatest_spec s.gps hne
    exact ⟨r, hmem, by simp [gps_latest, hr, okResp], _, rfl, rfl⟩
  · intro q lim hb
    constructor
    · exact ⟨applyLimit lim (insertionSortBy
        (fun r1 r2 => r1.doc.received_at ≤ r2.doc.received_at)
        (s.imu.filter (fun r => queryMatches q r.doc.session r.doc.received_at))),
        by simp [get_imu, hb, okResp]⟩
    · exact ⟨applyLimit lim (insertionSortBy
        (fun r1 r2 => r1.doc.received_at ≤ r2.doc.received_at)
        (s.gps.filter (fun r => queryMatches q r.doc.session r.doc.received_at))),
        by simp [get_gps, hb, okResp]⟩
  · intro r
    exact ⟨_, rfl, rfl⟩
  · intro r
    exact ⟨_, rfl, rfl⟩

/-- Witness for C10: on a concrete store the latest-GPS body carries a
stringified `_id` and the IMU listing body is projection-built. -/
theorem claim_C10_witness :
    storeW.gps ≠ []
    ∧ _build_query {} 0 = Except.ok ({ session := none, received_at := none }, 2000)
    ∧ (∃ r, r ∈ storeW.gps
        ∧ (gps_latest (DB.connected storeW false) {}).body = serialize r
        ∧ ∃ fs, serialize r = Json.obj fs
            ∧ lookupField fs "_id" = some (Json.str (toString r.oid)))
    ∧ (∃ recs : List StoredImu,
        (get_imu (DB.connected storeW false) {} 0).body = Json.arr (recs.map projImu)) := by
  have h := claim_C10 storeW {} 0 (List.cons_ne_nil _ _)
  exact ⟨List.cons_ne_nil _ _, rfl, h.1, (h.2.1 _ 2000 rfl).1⟩

end MobileAnalytics
